import Mathlib

/-!
Verification of the nagios plugin library (`nagios/plugin.py`): a shallow
embedding of the threshold range model (`NagiosRange`, `NagiosThresholds`),
the performance-data model (`NagiosPerfLabel`, `NagiosPerformance`) and the
factory check aggregation (`NagiosPluginFactory.check`), together with
theorems settling the specification's claims about them.

Python numbers are modelled as exact rationals (`ℚ`): the comparisons the
library performs are order comparisons on values parsed from decimal
literals, for which IEEE-754 rounding is immaterial.  Python exceptions are
modelled with `Except`/`Option`: `Except.error` carries the message of the
`NagiosPluginError` raised, and an `Option` result is `none` where the
Python code would raise a non-`NagiosPluginError` exception (for example an
`UnboundLocalError`).
-/

/-! ### Status codes (nagios return codes of the source module) -/

def OK : ℕ := 0

def WARN : ℕ := 1

def CRIT : ℕ := 2

def UNKN : ℕ := 3

/-! ### Python string and number primitives used by the parser -/

/-- Python `str.split(sep)` for a one-character separator: the list of groups
between occurrences of `sep`; the empty string yields one empty group. -/
def splitChar (sep : Char) : List Char → List (List Char)
  | [] => [[]]
  | c :: cs =>
    let r := splitChar sep cs
    if c = sep then [] :: r
    else
      match r with
      | g :: gs => (c :: g) :: gs
      | [] => [[c]]

/-- Reads a maximal run of decimal digits, returning the accumulated value,
the number of digits read, and the remaining characters. -/
def readDigits : List Char → ℕ → ℕ → ℕ × ℕ × List Char
  | [], acc, n => (acc, n, [])
  | c :: cs, acc, n =>
    if c.isDigit then readDigits cs (10 * acc + (c.toNat - 48)) (n + 1)
    else (acc, n, c :: cs)

def pow10 : ℕ → ℕ
  | 0 => 1
  | n + 1 => 10 * pow10 n

/-- Assembles `sgn * (ip.fp) * 10 ^ e` as an exact rational, where `fp` has
`fpn` digits.  Written so that integral results are built by integer casts
alone (they reduce in the kernel) and only fractional results normalize. -/
def ratOfParts (sgn : ℤ) (ip fp fpn : ℕ) (e : ℤ) : ℚ :=
  let mant : ℤ := sgn * ((ip * pow10 fpn + fp : ℕ) : ℤ)
  if (fpn : ℤ) ≤ e then ((mant * ((pow10 (e - (fpn : ℤ)).toNat : ℕ) : ℤ) : ℤ) : ℚ)
  else mkRat mant (pow10 (((fpn : ℤ) - e).toNat))

/-- Python `float(str)` on the model's exact rationals: an optional sign, a
decimal mantissa (digits, with an optional point and fractional digits, at
least one digit in all), and an optional exponent part.  CPython's
additional spellings (surrounding whitespace, `inf`, `nan`) are not
modelled; no claim exercises them. -/
def pyFloatChars (l : List Char) : Option ℚ :=
  let signAndRest : ℤ × List Char :=
    match l with
    | '-' :: r => (-1, r)
    | '+' :: r => (1, r)
    | _ => (1, l)
  let sgn := signAndRest.1
  let intPart := readDigits signAndRest.2 0 0
  let ip := intPart.1
  let ipn := intPart.2.1
  let fracPart : ℕ × ℕ × List Char :=
    match intPart.2.2 with
    | '.' :: r => readDigits r 0 0
    | _ => (0, 0, intPart.2.2)
  let fp := fracPart.1
  let fpn := fracPart.2.1
  if ipn = 0 ∧ fpn = 0 then none
  else
    match fracPart.2.2 with
    | [] => some (ratOfParts sgn ip fp fpn 0)
    | c :: r =>
      if c = 'e' ∨ c = 'E' then
        let expSign : ℤ × List Char :=
          match r with
          | '-' :: rr => (-1, rr)
          | '+' :: rr => (1, rr)
          | _ => (1, r)
        let expPart := readDigits expSign.2 0 0
        if expPart.2.1 = 0 ∨ expPart.2.2 ≠ [] then none
        else some (ratOfParts sgn ip fp fpn (expSign.1 * (expPart.1 : ℤ)))
      else none

def pyFloat (s : String) : Option ℚ := pyFloatChars s.toList

-- Equality of `Except` results is decidable componentwise (used to evaluate
-- the parser's results on concrete inputs).
deriving instance DecidableEq for Except

/-! ### NagiosRange -/

/-- The state of a `NagiosRange` object after `__init__`: the raw range
definition (`None` disables the range), the threshold type, and the parsed
comparison values.  The source's field `end` is rendered `end_` (`end` is a
reserved word); defaults mirror the constructor (`start = 0`,
`start_infinity = False`, `end = 0`, `end_infinity = True`,
`inside = False`). -/
structure NagiosRange where
  range : Option String
  type : String
  start : ℚ
  start_infinity : Bool
  end_ : ℚ
  end_infinity : Bool
  inside : Bool
deriving DecidableEq

/-- Strips a leading `@` (the alert-on-inside marker) as `__parse_range`
does, reporting whether it was present. -/
def stripInvert (l : List Char) : Bool × List Char :=
  match l with
  | '@' :: r => (true, r)
  | _ => (false, l)

/-- NagiosRange.__init__ together with the private `__parse_range`: either
the fully parsed object or the message of the `NagiosPluginError` raised.
`range.split(':')` unpacking into two names raises `ValueError` unless the
split has exactly two groups, which lands one-part and three-or-more-part
splits in the single-endpoint branch, where `float` is applied to the whole
(possibly `@`-stripped) expression.  The `end is not ''` identity test of
the source is the equality test on strings: CPython interns the empty
string, so the two coincide on every path reached here. -/
def NagiosRange.init (range : Option String) (type : String) : Except String NagiosRange :=
  match range with
  | none => .ok ⟨none, type, 0, false, 0, true, false⟩
  | some raw =>
    let stripped := stripInvert raw.toList
    let inside := stripped.1
    match splitChar ':' stripped.2 with
    | [startS, endS] =>
      let startRes : Except String (ℚ × Bool) :=
        if startS = ['~'] then .ok (0, true)
        else
          match pyFloatChars startS with
          | some v => .ok (v, false)
          | none => .error ("Invalid start value '" ++ raw ++ "' in '" ++ type ++ "' range.")
      match startRes with
      | .error e => .error e
      | .ok sv =>
        match pyFloatChars endS with
        | some v => .ok ⟨some raw, type, sv.1, sv.2, v, false, inside⟩
        | none =>
          if endS ≠ [] then
            .error ("Invalid end value '" ++ raw ++ "' in '" ++ type ++ "' range.")
          else .ok ⟨some raw, type, sv.1, sv.2, 0, true, inside⟩
    | _ =>
      match pyFloatChars stripped.2 with
      | some v => .ok ⟨some raw, type, 0, false, v, false, inside⟩
      | none => .error ("Invalid range definition '" ++ raw ++ "' in '" ++ type ++ "' range.")

/-- NagiosRange.check_range.  `some b` is the boolean the method returns
(`true` when the range alerts on `value`); `none` models the path on which
both bound flags are infinite, where no branch assigns `inrange` and the
final read of it raises `UnboundLocalError`.  The numeric type check on
the Python argument is rendered by the `ℚ` value type. -/
def NagiosRange.check_range (self : NagiosRange) (value : ℚ) : Option Bool :=
  if self.range = none then some false
  else
    let inrange : Option Bool :=
      if !self.start_infinity && !self.end_infinity then
        some (decide (self.start ≤ value) && decide (value ≤ self.end_))
      else if !self.start_infinity && self.end_infinity then
        some (decide (self.start ≤ value))
      else if self.start_infinity && !self.end_infinity then
        some (decide (value ≤ self.end_))
      else none
    inrange.map (fun b => if self.inside then b else !b)

/-! ### NagiosThresholds -/

/-- The `NagiosRange(None, type)` object: a disabled range. -/
def disabledRange (type : String) : NagiosRange :=
  ⟨none, type, 0, false, 0, true, false⟩

structure NagiosThresholds where
  warning : NagiosRange
  critical : NagiosRange
deriving DecidableEq

/-- NagiosThresholds.__init__: each side is parsed, and a
`NagiosPluginError` from parsing is caught and replaced by a disabled range
of the same type (the `logging.log` call is a side effect outside the
model), so construction is total. -/
def NagiosThresholds.init (warningRange criticalRange : Option String) : NagiosThresholds where
  warning :=
    match NagiosRange.init warningRange "warning" with
    | .ok r => r
    | .error _ => disabledRange "warning"
  critical :=
    match NagiosRange.init criticalRange "critical" with
    | .ok r => r
    | .error _ => disabledRange "critical"

/-- NagiosPlugin.check_thresholds on the plugin state the method reads (its
`self.warning`/`self.critical` aliases of the thresholds).  The `is not
None` guards of the source always pass, the aliases being `NagiosRange`
objects; a `none` from `check_range` (its crashing path) propagates. -/
def check_thresholds (self : NagiosThresholds) (value : ℚ) : Option ℕ :=
  match self.critical.check_range value with
  | none => none
  | some true => some CRIT
  | some false =>
    match self.warning.check_range value with
    | none => none
    | some true => some WARN
    | some false => some OK

/-! ### Performance data -/

structure NagiosPerfLabel where
  label : String
  value : ℚ
  uom : String
  warn : String
  crit : String
  min : String
  max : String
deriving DecidableEq

/-- Units of measure allowed in performance data (NagiosPerfLabel.allowed_uoms). -/
def allowed_uoms : List String :=
  ["", "s", "us", "ms", "%", "B", "KB", "MB", "GB", "TB", "c"]

/-- NagiosPerfLabel.__init__: in strict mode a unit of measure outside
`allowed_uoms` raises `NagiosPluginError`. -/
def NagiosPerfLabel.init (label : String) (value : ℚ) (uom warn crit min max : String)
    (strict : Bool) : Except String NagiosPerfLabel :=
  if strict ∧ uom ∉ allowed_uoms then
    .error "Invalid UOM provided for performance data."
  else .ok ⟨label, value, uom, warn, crit, min, max⟩

structure NagiosPerformance where
  labels : List NagiosPerfLabel
deriving DecidableEq

/-- The membership test `label in self.labels` of `add_label`: it compares
the string `label` with `==` against the `NagiosPerfLabel` objects stored in
`self.labels`; `str` defines no equality with `NagiosPerfLabel` and
`NagiosPerfLabel` inherits identity equality from `object`, so every
comparison is `False` (the string is never one of the stored objects). -/
def strEqPerfLabel (_label : String) (_entry : NagiosPerfLabel) : Bool := false

/-- NagiosPerformance.add_label: the (inoperative) uniqueness test, then the
construction and append of the new `NagiosPerfLabel`. -/
def NagiosPerformance.add_label (self : NagiosPerformance) (label : String) (value : ℚ)
    (uom warn crit min max : String) (strict : Bool) : Except String NagiosPerformance :=
  if self.labels.any (strEqPerfLabel label) then
    .error "Performance labels must be unique."
  else
    match NagiosPerfLabel.init label value uom warn crit min max strict with
    | .error e => .error e
    | .ok l => .ok ⟨self.labels ++ [l]⟩

/-- C-style `%0.2f` of the source's `_fmt` template on the model's exact
rationals: the value rounded to two decimal places (half rounded up; the
claims only exercise values that are exact at two decimals, where every
rounding convention and CPython's binary doubles agree). -/
def format2f (q : ℚ) : String :=
  let n : ℤ := Int.fdiv (2 * (100 * q.num) + (q.den : ℤ)) (2 * (q.den : ℤ))
  let sgn := if n < 0 then "-" else ""
  let m := n.natAbs
  sgn ++ toString (m / 100) ++ "." ++ (if m % 100 < 10 then "0" else "") ++ toString (m % 100)

/-- One entry of `NagiosPerformance._fmt`:
`'%(label)s'=%(value)0.2f%(uom)s;%(warn)s;%(crit)s;%(min)s;%(max)s`. -/
def formatPerfLabel (l : NagiosPerfLabel) : String :=
  "'" ++ l.label ++ "'=" ++ format2f l.value ++ l.uom ++ ";" ++ l.warn ++ ";" ++ l.crit
    ++ ";" ++ l.min ++ ";" ++ l.max

/-- NagiosPerformance.format_performance: empty data renders as the empty
string, otherwise a `|` followed by the space-joined entries. -/
def NagiosPerformance.format_performance (self : NagiosPerformance) : String :=
  match self.labels with
  | [] => ""
  | _ :: _ => "|" ++ String.intercalate " " (self.labels.map formatPerfLabel)

/-! ### Factory check aggregation -/

/-- NagiosPlugin.codewords: the status-word dictionary; `none` is a lookup
of a key the dictionary does not hold (a `KeyError`). -/
def codewords (code : ℕ) : Option String :=
  if code = OK then some "OK"
  else if code = WARN then some "WARNING"
  else if code = CRIT then some "CRITICAL"
  else if code = UNKN then some "UNKNOWN"
  else none

/-- Python `str` of the numbers the factory interpolates for `%(value)s`.
Integral values render as CPython renders an `int`; non-integral values
render their exact fraction, a divergence from CPython's float `str`
(which abbreviates to twelve significant digits) flagged here because no
claim and no theorem below interpolates a non-integral value. -/
def pyStrNum (q : ℚ) : String :=
  if q.den = 1 then toString q.num
  else toString q.num ++ "/" ++ toString q.den

/-- Scanner state of the `%`-formatting pass: outside a directive, right
after `%`, inside the parenthesised key, or right after the key awaiting
the conversion character. -/
inductive FmtState where
  | normal
  | percent
  | key (acc : List Char)
  | conv (k : List Char)

/-- Python `%`-formatting of a message against a mapping, restricted to the
directive forms the plugin's messages use: `%%` and `%(key)s`.  A missing
key, a conversion other than `s`, a malformed directive or a dangling `%`
is a formatting failure (`none`); CPython raises on those paths too
(`KeyError`, `ValueError: unsupported format character`, `ValueError:
incomplete format`), except that conversions such as `d` or `f` succeed in
CPython and are not modelled, no message of the source or claims using
them. -/
def goFmt (map : String → Option String) : FmtState → List Char → Option (List Char)
  | .normal, [] => some []
  | .normal, c :: rest =>
    if c = '%' then goFmt map .percent rest
    else (goFmt map .normal rest).map (c :: ·)
  | .percent, [] => none
  | .percent, c :: rest =>
    if c = '%' then (goFmt map .normal rest).map ('%' :: ·)
    else if c = '(' then goFmt map (.key []) rest
    else none
  | .key _, [] => none
  | .key acc, c :: rest =>
    if c = ')' then goFmt map (.conv acc) rest
    else goFmt map (.key (acc ++ [c])) rest
  | .conv _, [] => none
  | .conv k, c :: rest =>
    if c = 's' then
      match map (String.mk k) with
      | none => none
      | some v => (goFmt map .normal rest).map (fun t => v.toList ++ t)
    else none

def pyFormatMap (msg : String) (map : String → Option String) : Option String :=
  (goFmt map .normal msg.toList).map String.mk

/-- NagiosPluginFactory.__format_message: the message `%`-formatted against
`dict(status=self.plugin.codewords[code], value=value, code=code)`. -/
def format_message (message : String) (value : ℚ) (code : ℕ) : Option String :=
  match codewords code with
  | none => none
  | some statusWord =>
    pyFormatMap message (fun k =>
      if k = "status" then some statusWord
      else if k = "value" then some (pyStrNum value)
      else if k = "code" then some (toString code)
      else none)

/-- One turn of the factory check loop on a `(value, message)` response:
the value's classification paired with its formatted message (`none` when
either step raises). -/
def classifyFmt (self : NagiosThresholds) (r : ℚ × String) : Option (ℕ × String) :=
  match check_thresholds self r.1 with
  | none => none
  | some code => (format_message r.2 r.1 code).map (fun m => (code, m))

/-- One iteration of the factory check's response loop: appends the
response's classification code and formatted message to the accumulated
`codes`/`messages` lists, `none` propagating a raised exception. -/
def factoryStep (self : NagiosThresholds) (acc : Option (List ℕ × List String))
    (r : ℚ × String) : Option (List ℕ × List String) :=
  match acc with
  | none => none
  | some cm =>
    match classifyFmt self r with
    | none => none
    | some p => some (cm.1 ++ [p.1], cm.2 ++ [p.2])

/-- NagiosPluginFactory.check with the default `perf_labels=None` (the
label-matching block is skipped), on the plugin state the method reads (the
thresholds).  Per response the value is classified and its message
formatted (`factoryStep`); the codes are then sorted, reversed, and the
first taken, and the messages are joined with a comma.  The result is the
`(code, info)` pair handed to `die`; `none` models an uncaught Python
exception (an empty response list indexing `codes[0]`, a `check_range`
crash, or a formatting failure), which `UnhandledExceptionHandler` would
turn into an UNKNOWN exit. -/
def factory_check (self : NagiosThresholds) (responses : List (ℚ × String)) :
    Option (ℕ × String) :=
  let looped := responses.foldl (factoryStep self)
    (some (([] : List ℕ), ([] : List String)))
  match looped with
  | none => none
  | some cm =>
    match (cm.1.insertionSort (· ≤ ·)).reverse with
    | [] => none
    | top :: _ => some (top, String.intercalate ", " cm.2)

/-! ### Shared evaluation lemmas for check_range -/

/-- A range with two finite bounds alerts outside them, or inside when
inverted, with inclusive comparisons. -/
lemma check_range_both_finite (raw ty : String) (a b : ℚ) (inv : Bool) (v : ℚ) :
    NagiosRange.check_range ⟨some raw, ty, a, false, b, false, inv⟩ v =
      some (if inv then decide (a ≤ v ∧ v ≤ b) else decide (v < a ∨ b < v)) := by
  cases inv
  all_goals simp [NagiosRange.check_range]
  all_goals simp [← decide_not, not_le, not_lt, decide_eq_decide]

/-- A range with an infinite lower bound alerts above its upper bound, or
at or below it when inverted. -/
lemma check_range_lower_infinite (raw ty : String) (a b : ℚ) (inv : Bool) (v : ℚ) :
    NagiosRange.check_range ⟨some raw, ty, a, true, b, false, inv⟩ v =
      some (if inv then decide (v ≤ b) else decide (b < v)) := by
  cases inv
  all_goals simp [NagiosRange.check_range]
  all_goals simp [← decide_not, not_le, not_lt, decide_eq_decide]

/-- A range with an infinite upper bound alerts below its lower bound, or
at or above it when inverted. -/
lemma check_range_upper_infinite (raw ty : String) (a b : ℚ) (inv : Bool) (v : ℚ) :
    NagiosRange.check_range ⟨some raw, ty, a, false, b, true, inv⟩ v =
      some (if inv then decide (a ≤ v) else decide (v < a)) := by
  cases inv
  all_goals simp [NagiosRange.check_range]
  all_goals simp [← decide_not, not_le, not_lt, decide_eq_decide]

/-- A disabled range never alerts. -/
lemma check_range_disabled (r : NagiosRange) (h : r.range = none) (v : ℚ) :
    r.check_range v = some false := by
  simp [NagiosRange.check_range, h]

/-! ### Claim theorems -/

/-- C1: the claimed invariant — a parsed, enabled Range never has both
bounds infinite — fails on the code: parsing the accepted expression `~:`
yields a Range with `start_infinity` and `end_infinity` both set, on which
`check_range` crashes (returns no boolean) for every value, here shown at
value 0. -/
theorem parse_tilde_colon_both_infinite_crash :
    NagiosRange.init (some "~:") "unknown" =
      .ok ⟨some "~:", "unknown", 0, true, 0, true, false⟩ ∧
    NagiosRange.check_range ⟨some "~:", "unknown", 0, true, 0, true, false⟩ 0 = none :=
  ⟨by decide, by decide⟩

/-- C2: the claimed duplicate-label rejection fails on the code: adding the
label `temp` twice succeeds both times, the second call appending a second
`temp` entry instead of raising the uniqueness error. -/
theorem add_label_duplicate_not_rejected :
    NagiosPerformance.add_label ⟨[]⟩ "temp" 75 "" "" "" "" "" false =
      .ok ⟨[⟨"temp", 75, "", "", "", "", ""⟩]⟩ ∧
    NagiosPerformance.add_label ⟨[⟨"temp", 75, "", "", "", "", ""⟩]⟩ "temp" 80 "" "" "" "" "" false =
      .ok ⟨[⟨"temp", 75, "", "", "", "", ""⟩, ⟨"temp", 80, "", "", "", "", ""⟩]⟩ :=
  ⟨by decide, by decide⟩

/-- C5: the range expression `@10:20` parses with both bounds finite and
the inversion flag set and alerts exactly when `10 ≤ v ≤ 20`, while
`10:20` parses without the flag and alerts exactly when `v < 10` or
`v > 20`, with inclusive endpoint comparisons. -/
theorem range_at_inversion_eval (v : ℚ) :
    NagiosRange.init (some "@10:20") "unknown" =
      .ok ⟨some "@10:20", "unknown", 10, false, 20, false, true⟩ ∧
    NagiosRange.check_range ⟨some "@10:20", "unknown", 10, false, 20, false, true⟩ v =
      some (decide (10 ≤ v ∧ v ≤ 20)) ∧
    NagiosRange.init (some "10:20") "unknown" =
      .ok ⟨some "10:20", "unknown", 10, false, 20, false, false⟩ ∧
    NagiosRange.check_range ⟨some "10:20", "unknown", 10, false, 20, false, false⟩ v =
      some (decide (v < 10 ∨ v > 20)) := by
  refine ⟨by decide, ?_, by decide, ?_⟩
  · simpa using check_range_both_finite "@10:20" "unknown" 10 20 true v
  · simpa using check_range_both_finite "10:20" "unknown" 10 20 false v

/-- C6: the colon-free expression `10` parses with the single number as
the upper bound, the lower bound at its default 0 and upper infinity
cleared, and alerts exactly when `v < 0` or `v > 10`. -/
theorem range_single_number_eval (v : ℚ) :
    NagiosRange.init (some "10") "unknown" =
      .ok ⟨some "10", "unknown", 0, false, 10, false, false⟩ ∧
    NagiosRange.check_range ⟨some "10", "unknown", 0, false, 10, false, false⟩ v =
      some (decide (v < 0 ∨ v > 10)) := by
  refine ⟨by decide, ?_⟩
  simpa using check_range_both_finite "10" "unknown" 0 10 false v

/-- C9: an empty performance set formats as the empty string, and adding
the label `temp` with value 75 yields the exact suffix
`|'temp'=75.00;;;;` with all four trailing semicolon fields present. -/
theorem format_performance_suffix :
    NagiosPerformance.format_performance ⟨[]⟩ = "" ∧
    NagiosPerformance.add_label ⟨[]⟩ "temp" 75 "" "" "" "" "" false =
      .ok ⟨[⟨"temp", 75, "", "", "", "", ""⟩]⟩ ∧
    NagiosPerformance.format_performance ⟨[⟨"temp", 75, "", "", "", "", ""⟩]⟩ =
      "|'temp'=75.00;;;;" :=
  ⟨rfl, by decide, by decide⟩

/-- C10: thresholds constructed from absent warning and critical
expressions (the command-line defaults) have both sides disabled, and
check_thresholds then returns OK for every value. -/
theorem default_thresholds_always_ok (v : ℚ) :
    (NagiosThresholds.init none none).warning.range = none ∧
    (NagiosThresholds.init none none).critical.range = none ∧
    check_thresholds (NagiosThresholds.init none none) v = some OK :=
  ⟨rfl, rfl, rfl⟩

/-- C3: Threshold construction is total — for each side, a parse failure is
caught and the side replaced by a disabled range (which then evaluates
false on every value), while a successful parse installs the parsed range
unchanged (so the side behaves exactly as that range). -/
theorem thresholds_construction_total (w c : Option String) (v : ℚ) :
    (∀ e, NagiosRange.init w "warning" = .error e →
      (NagiosThresholds.init w c).warning = disabledRange "warning" ∧
      (NagiosThresholds.init w c).warning.check_range v = some false) ∧
    (∀ e, NagiosRange.init c "critical" = .error e →
      (NagiosThresholds.init w c).critical = disabledRange "critical" ∧
      (NagiosThresholds.init w c).critical.check_range v = some false) ∧
    (∀ r, NagiosRange.init w "warning" = .ok r →
      (NagiosThresholds.init w c).warning = r) ∧
    (∀ r, NagiosRange.init c "critical" = .ok r →
      (NagiosThresholds.init w c).critical = r) := by
  refine ⟨fun e h => ?_, fun e h => ?_, fun r h => ?_, fun r h => ?_⟩ <;>
    simp [NagiosThresholds.init, h, disabledRange]
  · exact check_range_disabled _ rfl v
  · exact check_range_disabled _ rfl v

/-- C3 witness: `Threshold("bad", "10")` — the invalid warning side is
disabled and evaluates false at 7, and the critical side is exactly the
range parsed from `10`. -/
theorem thresholds_construction_total_witness :
    (NagiosThresholds.init (some "bad") (some "10")).warning.check_range 7 = some false ∧
    (NagiosThresholds.init (some "bad") (some "10")).critical =
      ⟨some "10", "critical", 0, false, 10, false, false⟩ :=
  ⟨((thresholds_construction_total (some "bad") (some "10") 7).1
      "Invalid range definition 'bad' in 'warning' range." (by decide)).2,
   (thresholds_construction_total (some "bad") (some "10") 7).2.2.2
      ⟨some "10", "critical", 0, false, 10, false, false⟩ (by decide)⟩

/-- C4: check_thresholds is a fixed priority order — whenever the two
ranges evaluate to booleans on a value, the result is CRITICAL if the
critical range alerts, else WARNING if the warning range alerts, else OK,
regardless of the ranges themselves. -/
theorem check_thresholds_priority (t : NagiosThresholds) (v : ℚ) (wb cb : Bool)
    (hw : t.warning.check_range v = some wb) (hc : t.critical.check_range v = some cb) :
    check_thresholds t v = some (if cb then CRIT else if wb then WARN else OK) := by
  unfold check_thresholds
  rw [hc]
  cases cb
  · rw [hw]; cases wb <;> rfl
  · rfl

/-- C4 witness: with warning `5` and critical `10`, value 12 classifies as
CRITICAL (critical dominates although both ranges alert). -/
theorem check_thresholds_priority_witness :
    check_thresholds (NagiosThresholds.init (some "5") (some "10")) 12 = some CRIT := by
  have h := check_thresholds_priority (NagiosThresholds.init (some "5") (some "10")) 12
    true true (by decide) (by decide)
  simpa using h

/-- C7: any range expression whose (possibly `@`-stripped) text splits on
the colon into exactly a start and a non-empty end that is not a number
fails to parse with a NagiosPluginError, whatever the start part is. -/
theorem range_trailing_garbage_fails (s ty : String) (st en : List Char)
    (hsplit : splitChar ':' (stripInvert s.toList).2 = [st, en])
    (hne : en ≠ []) (hnum : pyFloatChars en = none) :
    ∃ e, NagiosRange.init (some s) ty = .error e := by
  simp only [NagiosRange.init, hsplit]
  by_cases hst : st = ['~']
  · simp [hst, hnum, hne]
  · simp only [if_neg hst]
    cases hpf : pyFloatChars st
    · exact ⟨_, rfl⟩
    · simp [hpf, hnum, hne]

/-- C7 witness: `10:20@` fails to parse — the end part `20@` is non-empty
and not a number. -/
theorem range_trailing_garbage_fails_witness :
    ∃ e, NagiosRange.init (some "10:20@") "unknown" = .error e :=
  range_trailing_garbage_fails "10:20@" "unknown" ['1', '0'] ['2', '0', '@']
    (by decide) (by decide) (by decide)

/-! ### Factory aggregation lemmas -/

/-- The factory response loop, when every response classifies and formats
successfully, accumulates the codes and the formatted messages in order. -/
lemma factory_loop (t : NagiosThresholds) (rs : List (ℚ × String)) :
    ∀ pairs : List (ℕ × String), rs.map (classifyFmt t) = pairs.map some →
      ∀ acc : List ℕ × List String,
        rs.foldl (factoryStep t) (some acc) =
          some (acc.1 ++ pairs.map Prod.fst, acc.2 ++ pairs.map Prod.snd) := by
  induction rs with
  | nil =>
    intro pairs h acc
    have hp : pairs = [] := by
      cases pairs with
      | nil => rfl
      | cons p ps => simp at h
    subst hp
    simp
  | cons r rs ih =>
    intro pairs h acc
    cases pairs with
    | nil => simp at h
    | cons p ps =>
      simp only [List.map_cons, List.cons.injEq] at h
      have hstep : factoryStep t (some acc) r = some (acc.1 ++ [p.1], acc.2 ++ [p.2]) := by
        simp [factoryStep, h.1]
      rw [List.foldl_cons, hstep, ih ps h.2 _]
      simp

/-- Sorting ascending and reversing puts a maximum of a non-empty list of
naturals in front. -/
lemma sorted_reverse_head (l : List ℕ) (hne : l ≠ []) :
    ∃ top rest, (l.insertionSort (· ≤ ·)).reverse = top :: rest ∧
      top ∈ l ∧ ∀ x ∈ l, x ≤ top := by
  have hperm := List.perm_insertionSort (· ≤ ·) l
  have hsort := List.sorted_insertionSort (· ≤ ·) l
  have hlen : l.insertionSort (· ≤ ·) ≠ [] := by
    intro h0
    apply hne
    have hl := hperm.length_eq
    rw [h0] at hl
    exact List.length_eq_zero.mp hl.symm
  obtain ⟨top, rest, hrev⟩ : ∃ a r, (l.insertionSort (· ≤ ·)).reverse = a :: r := by
    cases hrevc : (l.insertionSort (· ≤ ·)).reverse with
    | nil => exact absurd (List.reverse_eq_nil_iff.mp hrevc) hlen
    | cons a r => exact ⟨a, r, rfl⟩
  have hpw : (l.insertionSort (· ≤ ·)).reverse.Pairwise (fun a b => b ≤ a) := by
    rw [List.pairwise_reverse]
    exact hsort
  refine ⟨top, rest, hrev, ?_, ?_⟩
  · have hm : top ∈ (l.insertionSort (· ≤ ·)).reverse := by
      rw [hrev]
      exact List.mem_cons_self _ _
    rw [List.mem_reverse] at hm
    exact hperm.mem_iff.mp hm
  · intro x hx
    have hx2 : x ∈ (l.insertionSort (· ≤ ·)).reverse := by
      rw [List.mem_reverse]
      exact hperm.mem_iff.mpr hx
    rw [hrev] at hx2
    rcases List.mem_cons.mp hx2 with hxt | hxr
    · exact le_of_eq hxt
    · rw [hrev] at hpw
      exact List.rel_of_pairwise_cons hpw hxr

/-- C8 (amended): when a factory check's non-empty responses all classify
and format successfully, the emitted pair is the maximum (most severe) of
the per-value classification codes together with the formatted per-value
messages joined by a comma and space in their original order. -/
theorem factory_check_aggregation (t : NagiosThresholds) (rs : List (ℚ × String))
    (pairs : List (ℕ × String)) (hne : rs ≠ [])
    (h : rs.map (classifyFmt t) = pairs.map some) :
    ∃ top, factory_check t rs = some (top, String.intercalate ", " (pairs.map Prod.snd)) ∧
      top ∈ pairs.map Prod.fst ∧ ∀ c ∈ pairs.map Prod.fst, c ≤ top := by
  have hloop := factory_loop t rs pairs h ([], [])
  have hpne : pairs.map Prod.fst ≠ [] := by
    intro h0
    apply hne
    have hp : pairs = [] := by simpa using h0
    subst hp
    simpa using h
  obtain ⟨top, rest, hrev, hmem, hmax⟩ := sorted_reverse_head (pairs.map Prod.fst) hpne
  refine ⟨top, ?_, hmem, hmax⟩
  simp only [factory_check]
  rw [hloop]
  simp only [List.nil_append]
  rw [hrev]

/-- C8 counterexample to the claim as stated: the factory passes each
message through Python %-formatting before joining, so the emitted info for
the single response `(3, "100%%")` is `100%`, not the verbatim message
joined — the claim's "messages joined by a comma" only holds of the
formatted messages. -/
theorem factory_info_not_verbatim :
    factory_check (NagiosThresholds.init none none) [(3, "100%%")] = some (OK, "100%") ∧
    String.intercalate ", " ["100%%"] ≠ "100%" :=
  ⟨by decide, by decide⟩

/-- C8 witness: values 5 and 15 with messages `a` and `b` under warning 10
and critical 20 give overall WARNING and info `a, b`. -/
theorem factory_check_aggregation_witness :
    factory_check (NagiosThresholds.init (some "10") (some "20")) [(5, "a"), (15, "b")] =
      some (WARN, "a, b") := by
  obtain ⟨top, heq, hmem, hmax⟩ := factory_check_aggregation
    (NagiosThresholds.init (some "10") (some "20")) [(5, "a"), (15, "b")]
    [(OK, "a"), (WARN, "b")] (by decide) (by decide)
  have htop : top = WARN := by
    simp only [List.map_cons, List.map_nil, List.mem_cons, List.not_mem_nil, or_false,
      List.mem_singleton, OK, WARN] at hmem hmax
    rcases hmem with h0 | h1
    · exact absurd (hmax 1 (Or.inr rfl)) (by simp [h0])
    · exact h1
  rw [htop] at heq
  simpa using heq
